import Mathlib

/-!
Verification development for the Subtronics gas-monitor backend
(`src/index.js`).  The JavaScript source is shallowly embedded:

* JSON scalar values are `JPrim` (numbers as exact rationals, strings);
  a JS `NaN` produced by `parseInt`/`parseFloat` is represented as `none`
  in an `Option` result.
* A device payload is a `Payload`: the top-level key/value object plus the
  optional nested `"Parameters"` object (the only nesting the parser reads).
* `parseSubtronicsPayload` embeds the normalizer (index.js lines 180-296),
  `generateSubtronicsAlerts` the alert rule engine (lines 355-447),
  `handleSubtronicsMessage` the MQTT message handler for `SubTronics/data`
  (lines 488-529) and `acknowledgeAlert` the acknowledge endpoint
  (lines 862-879).  The in-memory `subtronicsData` Map is a `Store`.
* The wall clock is passed explicitly: `now` is the ISO timestamp string a
  `new Date().toISOString()` call produces, `nowMs` the decimal rendering
  of `Date.now()` as interpolated into alert ids.
-/

/-- A scalar JSON value as the parser consumes it: a (finite) number or a
string.  JS `NaN` never occurs inside a payload; it only arises from
`parseInt`/`parseFloat`, whose embeddings return `Option`. -/
inductive JPrim where
  | num (q : ℚ)
  | str (s : String)
deriving DecidableEq

/-- JS truthiness of a scalar: a number is falsy iff it is 0, a string iff
it is empty. -/
def JPrim.truthy : JPrim → Bool
  | .num q => q != 0
  | .str s => s != ""

/-- JS string conversion (template-literal interpolation).  Number
formatting differs in detail from JS but no claim depends on how a numeric
serial is rendered. -/
def JPrim.toStr : JPrim → String
  | .num q => toString q
  | .str s => s

/-- Embedding of `a || b` where `a` is an object-field lookup (absent = `undefined`,
falsy) and `b` the fallback. -/
def jsOr2 (a : Option JPrim) (b : JPrim) : JPrim :=
  match a with
  | some v => if v.truthy then v else b
  | none => b

/-- Embedding of `x || d` for a JS number `x` that may be `NaN` (`none`): `NaN` and `0`
are falsy and give the default. -/
def jsOrI (x : Option Int) (d : Int) : Int :=
  match x with
  | some v => if v = 0 then d else v
  | none => d

/-- Embedding of `x || d` for a JS float that may be `NaN` (`none`). -/
def jsOrQ (x : Option ℚ) (d : ℚ) : ℚ :=
  match x with
  | some v => if v = 0 then d else v
  | none => d

/-- Decimal digit value of a character, if any. -/
def digitVal (c : Char) : Option Nat :=
  if c.isDigit then some (c.toNat - 48) else none

/-- Whitespace skipped by JS `parseInt`/`parseFloat`. -/
def jsWs (c : Char) : Bool :=
  c = ' ' || c = '\t' || c = '\n' || c = '\r'

/-- Read a maximal run of leading decimal digits: accumulated value, number
of digits consumed, rest of the input. -/
def readNatAux : List Char → Nat → Nat → Nat × Nat × List Char
  | [], acc, k => (acc, k, [])
  | c :: cs, acc, k =>
    match digitVal c with
    | some d => readNatAux cs (acc * 10 + d) (k + 1)
    | none => (acc, k, c :: cs)

/-- Value of a maximal run of digits read as a decimal fraction
(`"25"` ↦ 1/4), stopping at the first non-digit. -/
def fracVal : List Char → ℚ
  | [] => 0
  | c :: cs =>
    match digitVal c with
    | some d => ((d : ℚ) + fracVal cs) / 10
    | none => 0

/-- Number of leading digit characters. -/
def fracDigits : List Char → Nat
  | [] => 0
  | c :: cs =>
    match digitVal c with
    | some _ => fracDigits cs + 1
    | none => 0

/-- Leading sign, returning (isNegative, rest). -/
def readSign : List Char → Bool × List Char
  | '-' :: r => (true, r)
  | '+' :: r => (false, r)
  | l => (false, l)

/-- JS `parseFloat` on a string (`none` = `NaN`): skip whitespace, optional
sign, digits with an optional fractional part, ignore any trailing
characters; `NaN` when no digit was consumed.  (Exponent notation is not
modelled; device payloads do not use it and no claim depends on it.) -/
def parseFloatChars (l : List Char) : Option ℚ :=
  let l1 := l.dropWhile jsWs
  let (neg, l2) := readSign l1
  let (ip, k, l3) := readNatAux l2 0 0
  let (fr, fk) : ℚ × Nat :=
    match l3 with
    | '.' :: l4 => (fracVal l4, fracDigits l4)
    | _ => (0, 0)
  if k = 0 ∧ fk = 0 then none
  else some ((if neg then (-1 : ℚ) else 1) * ((ip : ℚ) + fr))

/-- JS `parseInt` (radix 10) on a string (`none` = `NaN`). -/
def parseIntChars (l : List Char) : Option Int :=
  let l1 := l.dropWhile jsWs
  let (neg, l2) := readSign l1
  let (ip, k, _) := readNatAux l2 0 0
  if k = 0 then none
  else some ((if neg then (-1 : Int) else 1) * (ip : Int))

/-- Truncation toward zero, as JS number-to-integer string conversion
behaves for ordinary magnitudes. -/
def ratTrunc (q : ℚ) : Int :=
  if 0 ≤ q then ⌊q⌋ else ⌈q⌉

/-- JS `parseFloat` applied to a scalar (numbers pass through). -/
def parseFloatP : JPrim → Option ℚ
  | .num q => some q
  | .str s => parseFloatChars s.data

/-- JS `parseInt` applied to a scalar (numbers are truncated toward 0). -/
def parseIntP : JPrim → Option Int
  | .num q => some (ratTrunc q)
  | .str s => parseIntChars s.data

/-- JS `parseInt` applied to a possibly-absent field:
`parseInt(undefined)` is `NaN`. -/
def parseIntU (v : Option JPrim) : Option Int :=
  v.bind parseIntP

/-- JS `parseFloat` applied to a possibly-absent field. -/
def parseFloatU (v : Option JPrim) : Option ℚ :=
  v.bind parseFloatP

/-- Field lookup in a JSON object (association list); `none` = the key is
absent (`undefined`). -/
def getKey : List (String × JPrim) → String → Option JPrim
  | [], _ => none
  | (k, v) :: rest, key => if k = key then some v else getKey rest key

/-- Set (insert or replace) a field in a JSON object. -/
def setKey : List (String × JPrim) → String → JPrim → List (String × JPrim)
  | [], k, v => [(k, v)]
  | (k', v') :: rest, k, v =>
    if k' = k then (k, v) :: rest else (k', v') :: setKey rest k v

/-- A device payload: the top-level object and, when present, the nested
`"Parameters"` object (the only sub-object the normalizer reads). -/
structure Payload where
  top : List (String × JPrim)
  params? : Option (List (String × JPrim))
deriving DecidableEq

/-- Embedding of `data["Parameters"] || {}` (index.js line 196). -/
def Payload.params (p : Payload) : List (String × JPrim) :=
  p.params?.getD []

/-- Insert/replace a top-level field of a payload. -/
def Payload.setTop (p : Payload) (k : String) (v : JPrim) : Payload :=
  { p with top := setKey p.top k v }

/-- Insert/replace a field of the `"Parameters"` sub-object (creating the
sub-object when absent). -/
def Payload.setParam (p : Payload) (k : String) (v : JPrim) : Payload :=
  { p with params? := some (setKey p.params k v) }

/-- The Canonical Record: the flat normalized object built at index.js
lines 241-285.  `sensor_reading`/`offset` are `Option ℚ` because
`parseFloat` can yield `NaN` (`none`); integer fields come from
`parseInt(...) || default` and are always actual integers. -/
structure Record where
  device_name : JPrim
  serial_number : JPrim
  gas_type : JPrim
  timestamp : JPrim
  unit : String
  message_type : JPrim
  sender : JPrim
  sensor_reading : Option ℚ
  offset : Option ℚ
  alarm_status : String
  span_high : Int
  span_low : Int
  a1_level : Int
  a2_level : Int
  a3_level : Int
  decimal_point : Int
  a1_type : JPrim
  a1_hysteresis : Int
  a1_latching : Int
  a1_siren : Int
  a1_buzzer : Int
  alarm1_led : Int
  alarm2_led : Int
  alarm3_led : Int
  sensor_fault : Int
  latitude : JPrim
  longitude : JPrim
  raw_message : Payload
  processed_at : String
  data_quality : String
deriving DecidableEq

/-- An alarm LED flag: `parseInt(params[k]) || 0` (index.js lines 226-228). -/
def ledOf (params : List (String × JPrim)) (k : String) : Int :=
  jsOrI (parseIntU (getKey params k)) 0

/-- Embedding of `parseInt(params["Sensor Fault"]) || parseInt(params["SensorFault"]) || 0`
(index.js line 229). -/
def sensorFaultOf (params : List (String × JPrim)) : Int :=
  jsOrI (parseIntU (getKey params "Sensor Fault"))
    (jsOrI (parseIntU (getKey params "SensorFault")) 0)

/-- Derived alarm status (index.js lines 231-234). -/
def alarmStatusOf (params : List (String × JPrim)) : String :=
  if sensorFaultOf params = 1 ∨ ledOf params "Alarm 3 LED Status" = 1 ∨
      ledOf params "Alarm 2 LED Status" = 1 ∨ ledOf params "Alarm 1 LED Status" = 1
  then "ALARM" else "NORMAL"

/-- Resolution of the primary reading (index.js lines 214-223): the first
present candidate wins and is passed to `parseFloat`; with no candidate the
initial value 0 stands. -/
def readingOf (data params : List (String × JPrim)) : Option ℚ :=
  match getKey params "Live Sensor Readings " with
  | some v => parseFloatP v
  | none =>
    match getKey params "Live Sensor Readings" with
    | some v => parseFloatP v
    | none =>
      match getKey data "Sensor Reading" with
      | some v => parseFloatP v
      | none =>
        match getKey params "Offset" with
        | some v => parseFloatP v
        | none => some 0

/-- Unit resolution (index.js lines 199-210); the numeric-code branch maps
every code to "ppm" (both arms of the source's conditional are "ppm"). -/
def unitOf (data params : List (String × JPrim)) : JPrim :=
  match getKey params "Unit of Measurement " with
  | some _ => JPrim.str "ppm"
  | none =>
    match getKey params "Unit of Measurement" with
    | some v => v
    | none =>
      match getKey data "Unit of Measurement " with
      | some v => v
      | none =>
        match getKey data "Unit of Measurement" with
        | some v => v
        | none => JPrim.str "ppm"

/-- An alarm-configuration integer: `parseInt(params[k]) || d`. -/
def intField (params : List (String × JPrim)) (k : String) (d : Int) : Int :=
  jsOrI (parseIntU (getKey params k)) d

/-- The payload normalizer, embedding `parseSubtronicsPayload`
(index.js lines 180-296) applied to an already-parsed object.  `now` is
the ISO timestamp the `new Date().toISOString()` calls produce during this
invocation. -/
def parseSubtronicsPayload (now : String) (p : Payload) : Record :=
  let data := p.top
  let params := p.params
  let gasConcentration := readingOf data params
  { device_name := jsOr2 (getKey data "Device Alias Name")
      (jsOr2 (getKey data "Device Alise Name") (JPrim.str "Unknown Device"))
    serial_number := jsOr2 (getKey data "OTSM-2 Serial Number") (JPrim.str "Unknown")
    gas_type := jsOr2 (getKey data "Gas") (JPrim.str "Unknown Gas")
    timestamp := jsOr2 (getKey data "Date Time At Reading")
      (jsOr2 (getKey data "timestamp") (JPrim.str now))
    unit := (unitOf data params).toStr.trim
    message_type := jsOr2 (getKey data "Message Type") (JPrim.str "LOG DATA")
    sender := jsOr2 (getKey data "Sender") (JPrim.str "Device")
    sensor_reading := gasConcentration
    offset := gasConcentration
    alarm_status := alarmStatusOf params
    span_high := intField params "Span High" 2000
    span_low := intField params "Span Low" 0
    a1_level := intField params "Alarm Level A1" 250
    a2_level := intField params "Alarm Level A2" 500
    a3_level := intField params "Alarm Level A3" 1000
    decimal_point := intField params "Decimal Point" 0
    a1_type := jsOr2 (getKey params "A1Type") (JPrim.str "High")
    a1_hysteresis := intField params "A1Hysterysis" 0
    a1_latching := intField params "A1Latching" 0
    a1_siren := intField params "A1Siren" 0
    a1_buzzer := intField params "A1Buzzer" 0
    alarm1_led := ledOf params "Alarm 1 LED Status"
    alarm2_led := ledOf params "Alarm 2 LED Status"
    alarm3_led := ledOf params "Alarm 3 LED Status"
    sensor_fault := sensorFaultOf params
    latitude := jsOr2 (getKey data "lat")
      (jsOr2 (getKey params "lat") (JPrim.str "0.00"))
    longitude := jsOr2 (getKey data "long")
      (jsOr2 (getKey params "long") (JPrim.str "0.00"))
    raw_message := p
    processed_at := now
    data_quality := "good" }

/-- An Alert event as built by the rule engine (index.js lines 360-371,
388-400, 407-419, 426-438).  `threshold` is absent (`none`) on the
sensor-fault alert; `current_value` is the raw `data.sensor_reading` there
(possibly `NaN` = `none`).  The `acknowledged*` fields are absent
(`undefined` = `none`) on every freshly generated alert; the acknowledge
endpoint later assigns `acknowledged_at`/`acknowledged_by`. -/
structure Alert where
  id : String
  type : String
  severity : String
  message : String
  timestamp : String
  device_name : JPrim
  serial_number : JPrim
  threshold : Option ℚ
  current_value : Option ℚ
  unit : String
  gas_type : JPrim
  acknowledged : Option Bool
  acknowledged_at : Option String
  acknowledged_by : Option String
deriving DecidableEq

/-- Alert id format `` `${kind}_${serial}_${Date.now()}` ``. -/
def mkId (kind serial stamp : String) : String :=
  kind ++ "_" ++ serial ++ "_" ++ stamp

/-- Embedding of `parseFloat(level) || default` as applied by the rule engine to the
record's numeric threshold fields (index.js lines 380-382):
`parseFloat` of a number is the number itself, and 0 is falsy. -/
def engineLevel (x : Int) (d : ℚ) : ℚ :=
  if (x : ℚ) = 0 then d else (x : ℚ)

/-- The sensor-fault alert (index.js lines 360-371). -/
def faultAlert (nowMs nowIso : String) (data : Record) : Alert :=
  { id := mkId "fault" data.serial_number.toStr nowMs
    type := "sensor_fault"
    severity := "critical"
    message := "Sensor fault detected"
    timestamp := nowIso
    device_name := data.device_name
    serial_number := data.serial_number
    threshold := none
    current_value := data.sensor_reading
    unit := data.unit
    gas_type := data.gas_type
    acknowledged := none
    acknowledged_at := none
    acknowledged_by := none }

/-- The A3 threshold alert (index.js lines 388-400). -/
def alarm3Alert (nowMs nowIso : String) (data : Record) (a3Level reading : ℚ) : Alert :=
  { id := mkId "alarm3" data.serial_number.toStr nowMs
    type := "alarm_level_3"
    severity := "critical"
    message := "Gas concentration above A3 threshold (" ++ toString a3Level ++ " " ++ data.unit ++ ")"
    timestamp := nowIso
    device_name := data.device_name
    serial_number := data.serial_number
    threshold := some a3Level
    current_value := some reading
    unit := data.unit
    gas_type := data.gas_type
    acknowledged := none
    acknowledged_at := none
    acknowledged_by := none }

/-- The A2 threshold alert (index.js lines 407-419). -/
def alarm2Alert (nowMs nowIso : String) (data : Record) (a2Level reading : ℚ) : Alert :=
  { id := mkId "alarm2" data.serial_number.toStr nowMs
    type := "alarm_level_2"
    severity := "high"
    message := "Gas concentration above A2 threshold (" ++ toString a2Level ++ " " ++ data.unit ++ ")"
    timestamp := nowIso
    device_name := data.device_name
    serial_number := data.serial_number
    threshold := some a2Level
    current_value := some reading
    unit := data.unit
    gas_type := data.gas_type
    acknowledged := none
    acknowledged_at := none
    acknowledged_by := none }

/-- The A1 threshold alert (index.js lines 426-438). -/
def alarm1Alert (nowMs nowIso : String) (data : Record) (a1Level reading : ℚ) : Alert :=
  { id := mkId "alarm1" data.serial_number.toStr nowMs
    type := "alarm_level_1"
    severity := "warning"
    message := "Gas concentration above A1 threshold (" ++ toString a1Level ++ " " ++ data.unit ++ ")"
    timestamp := nowIso
    device_name := data.device_name
    serial_number := data.serial_number
    threshold := some a1Level
    current_value := some reading
    unit := data.unit
    gas_type := data.gas_type
    acknowledged := none
    acknowledged_at := none
    acknowledged_by := none }

/-- The mutually exclusive high-to-low threshold cascade
(index.js lines 379-444). -/
def thresholdAlerts (nowMs nowIso : String) (data : Record) : List Alert :=
  let sensorReading := jsOrQ data.sensor_reading 0
  let a1Level := engineLevel data.a1_level 250
  let a2Level := engineLevel data.a2_level 500
  let a3Level := engineLevel data.a3_level 1000
  if a3Level ≤ sensorReading then [alarm3Alert nowMs nowIso data a3Level sensorReading]
  else if a2Level ≤ sensorReading then [alarm2Alert nowMs nowIso data a2Level sensorReading]
  else if a1Level ≤ sensorReading then [alarm1Alert nowMs nowIso data a1Level sensorReading]
  else []

/-- The Alert Rule Engine, embedding `generateSubtronicsAlerts`
(index.js lines 355-447).  `nowMs` is the decimal rendering of
`Date.now()` during this invocation, `nowIso` the ISO timestamp. -/
def generateSubtronicsAlerts (nowMs nowIso : String) (data : Record) : List Alert :=
  (if data.sensor_fault = 1 then [faultAlert nowMs nowIso data] else [])
    ++ thresholdAlerts nowMs nowIso data

/-- A value stored in the `subtronicsData` Map: the Map holds both latest
records (under the serial number) and alert lists (under
`` `${serial}_alerts` ``) — see index.js lines 502 and 519. -/
inductive StoreVal where
  | record (r : Record)
  | alerts (l : List Alert)
deriving DecidableEq

/-- The in-memory `subtronicsData` Map, as an association list with
insert-or-replace update. -/
abbrev Store := List (String × StoreVal)

/-- Embedding of `Map.get` (`none` = key absent). -/
def Store.lookup : Store → String → Option StoreVal
  | [], _ => none
  | (k, v) :: rest, key => if k = key then some v else Store.lookup rest key

/-- Embedding of `Map.set`: replace an existing binding or append a new one. -/
def Store.set : Store → String → StoreVal → Store
  | [], k, v => [(k, v)]
  | (k', v') :: rest, k, v =>
    if k' = k then (k, v) :: rest else (k', v') :: Store.set rest k v

/-- Embedding of the read `subtronicsData.get(deviceId + "_alerts") || []` of a device's
alert list.  When the key instead holds a latest-record object (possible
only through serial aliasing, see the C9 theorem) the source passes the
object through `|| []` unchanged and the downstream array operation throws;
callers of this helper model that path separately. -/
def Store.getAlerts (st : Store) (deviceId : String) : List Alert :=
  match st.lookup (deviceId ++ "_alerts") with
  | some (StoreVal.alerts l) => l
  | _ => []

/-- An inbound MQTT message on `SubTronics/data`: either a JSON string
that fails to parse, or the parsed top-level object. -/
inductive InMsg where
  | malformed
  | wellFormed (p : Payload)

/-- An event emitted to the WebSocket room of a device. -/
inductive OutEvent where
  | dataEvent (deviceId : String) (r : Record)
  | alertsEvent (deviceId : String) (alerts : List Alert)
deriving DecidableEq

/-- Normalization including the JSON-string parse step: a malformed string
raises in `JSON.parse` and the surrounding try/catch yields no record
(index.js lines 181-182, 292-295 together with 489-490, 556-558). -/
def parseSubtronicsPayloadRaw (now : String) : InMsg → Option Record
  | .malformed => none
  | .wellFormed p => some (parseSubtronicsPayload now p)

/-- The `SubTronics/data` branch of the MQTT message handler
(index.js lines 488-529): parse, store the record under its serial number,
emit the data event, generate alerts, and when there are any, append them
under `` `${serial}_alerts` `` and emit the alerts event.  When that key
aliases a stored record object, the source's array spread throws and the
handler's try/catch abandons the alerts step after the data event. -/
def handleSubtronicsMessage (now nowMs nowIso : String) (m : InMsg) (st : Store) :
    Store × List OutEvent :=
  match parseSubtronicsPayloadRaw now m with
  | none => (st, [])
  | some r =>
    let deviceId := r.serial_number.toStr
    let st1 := st.set deviceId (StoreVal.record r)
    let alerts := generateSubtronicsAlerts nowMs nowIso r
    if alerts.isEmpty then (st1, [OutEvent.dataEvent deviceId r])
    else
      match st1.lookup (deviceId ++ "_alerts") with
      | some (StoreVal.record _) => (st1, [OutEvent.dataEvent deviceId r])
      | some (StoreVal.alerts existing) =>
        (st1.set (deviceId ++ "_alerts") (StoreVal.alerts (existing ++ alerts)),
          [OutEvent.dataEvent deviceId r, OutEvent.alertsEvent deviceId alerts])
      | none =>
        (st1.set (deviceId ++ "_alerts") (StoreVal.alerts alerts),
          [OutEvent.dataEvent deviceId r, OutEvent.alertsEvent deviceId alerts])

/-- Embedding of `findIndex` by id followed by the in-place mutation the acknowledge
endpoint performs on the first matching alert: `none` when no alert in the
list has the id. -/
def ackInList (nowIso who alertId : String) : List Alert → Option (List Alert)
  | [] => none
  | a :: rest =>
    if a.id = alertId then
      some ({ a with acknowledged_at := some nowIso, acknowledged_by := some who } :: rest)
    else
      match ackInList nowIso who alertId rest with
      | some rest' => some (a :: rest')
      | none => none

/-- Outcome of the acknowledge endpoint: HTTP 200 `{success:true}`,
HTTP 404 `Alert not found`, or the uncaught `findIndex` TypeError that
Express surfaces as an HTTP 500. -/
inductive AckResult where
  | success
  | notFound
  | serverError
deriving DecidableEq

/-- True when the device's `` `${deviceId}_alerts` `` key holds a
latest-record object instead of an alert list (reachable through serial
aliasing, see the C9 theorem). -/
def recordAliased (st : Store) (deviceId : String) : Bool :=
  match st.lookup (deviceId ++ "_alerts") with
  | some (StoreVal.record _) => true
  | _ => false

/-- The acknowledge endpoint
`POST /devices/:deviceId/subtronics/alerts/:alertId/acknowledge`
(index.js lines 862-879): read `subtronicsData.get(`${deviceId}_alerts`) || []`
and look the alert up by id in that device's list only; on success set
`acknowledged_at` and `acknowledged_by` and write the list back, answering
success; if the id is absent (or the key is), answer 404 with no mutation.
When the key instead holds a latest-record object, `|| []` passes the
truthy record through and `alerts.findIndex` throws a TypeError, which
Express surfaces as an HTTP 500 — again no mutation. -/
def acknowledgeAlert (nowIso who : String) (st : Store) (deviceId alertId : String) :
    Store × AckResult :=
  match st.lookup (deviceId ++ "_alerts") with
  | some (StoreVal.record _) => (st, AckResult.serverError)
  | some (StoreVal.alerts alerts) =>
    match ackInList nowIso who alertId alerts with
    | some alerts' =>
      (st.set (deviceId ++ "_alerts") (StoreVal.alerts alerts'), AckResult.success)
    | none => (st, AckResult.notFound)
  | none => (st, AckResult.notFound)

/-- Modelled from the spec's words (§4.1 and §8): the primary reading is
resolved by trying `Parameters["Live Sensor Readings "]` (trailing space),
then `Parameters["Live Sensor Readings"]`, then top-level
`["Sensor Reading"]`, then `Parameters["Offset"]`; the first present value
wins and is parsed as floating point; when none is present the reading
is 0. -/
def specPrimaryReading (p : Payload) : Option ℚ :=
  match getKey p.params "Live Sensor Readings " with
  | some v => parseFloatP v
  | none =>
    match getKey p.params "Live Sensor Readings" with
    | some v => parseFloatP v
    | none =>
      match getKey p.top "Sensor Reading" with
      | some v => parseFloatP v
      | none =>
        match getKey p.params "Offset" with
        | some v => parseFloatP v
        | none => some 0

/-- Floating-point `>=` as the claim's words use it, with the reading on
the left possibly `NaN` (`none`): a comparison against `NaN` is false. -/
def fpGe (x : Option ℚ) (level : ℚ) : Bool :=
  match x with
  | none => false
  | some q => decide (level ≤ q)

/-- The key is present with a truthy value. -/
def truthyKey (o : List (String × JPrim)) (k : String) : Bool :=
  match getKey o k with
  | some v => v.truthy
  | none => false

/- Concrete fixtures used by counterexamples and witnesses. -/

/-- A payload whose primary reading parses to `NaN` and whose A3 threshold
is negative: the engine coerces `NaN` to 0 and `0 >= -1` fires A3, while a
direct floating-point comparison `NaN >= -1` is false. -/
def pC1 : Payload :=
  { top := [],
    params? := some [("Live Sensor Readings ", JPrim.str "abc"),
                     ("Alarm Level A3", JPrim.num (-1))] }

/-- A payload breaching the default A3 threshold. -/
def pC6 : Payload :=
  { top := [("OTSM-2 Serial Number", JPrim.str "OTSM-0001")],
    params? := some [("Live Sensor Readings ", JPrim.num 1500)] }

/-- Its Canonical Record. -/
def rC6 : Record := parseSubtronicsPayload "t0" pC6

/-- A freshly generated, unacknowledged alert. -/
def aC3 : Alert :=
  { id := "a1", type := "alarm_level_1", severity := "warning",
    message := "Gas concentration above A1 threshold (250 ppm)",
    timestamp := "t0", device_name := JPrim.str "Gas Sensor Block1",
    serial_number := JPrim.str "D", threshold := some 250,
    current_value := some 300, unit := "ppm",
    gas_type := JPrim.str "Carbon Monoxide (CO)",
    acknowledged := none, acknowledged_at := none, acknowledged_by := none }

/-- A store holding one alert for device `D`. -/
def stC3 : Store := [("D_alerts", StoreVal.alerts [aC3])]

/-- A store where the `D_alerts` key holds a latest-record object instead
of an alert list (the serial-aliased shape). -/
def stC3r : Store := [("D_alerts", StoreVal.record rC6)]

/-- A store holding one alert for the serial of `pC6`. -/
def stW6 : Store := [("OTSM-0001_alerts", StoreVal.alerts [aC3])]

/-- A payload carrying neither `"Date Time At Reading"` nor
`"timestamp"`: its record's `timestamp` falls back to the ingestion
clock. -/
def pC7 : Payload :=
  { top := [("OTSM-2 Serial Number", JPrim.str "OTSM-7")], params? := none }

/-- A payload carrying an explicit `"timestamp"`. -/
def pW7 : Payload :=
  { top := [("timestamp", JPrim.str "2024-05-05 10:00:00")], params? := none }

/-- A payload whose serial number is another device's serial followed by
`_alerts`. -/
def pW9 : Payload :=
  { top := [("OTSM-2 Serial Number", JPrim.str "OTSM-9_alerts")], params? := none }

/-- A store where device `OTSM-9` has an alert history. -/
def stW9 : Store := [("OTSM-9_alerts", StoreVal.alerts [aC3])]

/-- A payload configuring all three alarm levels to values that parse
to 0. -/
def pW10 : Payload :=
  { top := [],
    params? := some [("Alarm Level A1", JPrim.str "0"),
                     ("Alarm Level A2", JPrim.num 0),
                     ("Alarm Level A3", JPrim.str "0.7")] }

/-- A record whose stored thresholds are all 0 (not producible by the
normalizer; used to exercise the engine's read-back coercion). -/
def rZero : Record :=
  { device_name := JPrim.str "Dev", serial_number := JPrim.str "Z",
    gas_type := JPrim.str "CO", timestamp := JPrim.str "t",
    unit := "ppm", message_type := JPrim.str "LOG DATA",
    sender := JPrim.str "Device", sensor_reading := some 0,
    offset := some 0, alarm_status := "NORMAL",
    span_high := 2000, span_low := 0,
    a1_level := 0, a2_level := 0, a3_level := 0, decimal_point := 0,
    a1_type := JPrim.str "High", a1_hysteresis := 0, a1_latching := 0,
    a1_siren := 0, a1_buzzer := 0,
    alarm1_led := 0, alarm2_led := 0, alarm3_led := 0, sensor_fault := 0,
    latitude := JPrim.str "0.00", longitude := JPrim.str "0.00",
    raw_message := { top := [], params? := none },
    processed_at := "t", data_quality := "good" }

theorem getKey_setKey_ne {k k' : String} (h : k' ≠ k) (l : List (String × JPrim)) (v : JPrim) :
    getKey (setKey l k v) k' = getKey l k' := by
  induction l with
  | nil => simp [setKey, getKey, Ne.symm h]
  | cons hd tl ih =>
    obtain ⟨k0, v0⟩ := hd
    by_cases hk : k0 = k
    · subst hk
      simp [setKey, getKey, Ne.symm h]
    · simp [setKey, hk, getKey, ih]

theorem Store.lookup_set_self (st : Store) (k : String) (v : StoreVal) :
    (st.set k v).lookup k = some v := by
  induction st with
  | nil => simp [Store.set, Store.lookup]
  | cons hd tl ih =>
    obtain ⟨k0, v0⟩ := hd
    by_cases hk : k0 = k
    · simp [Store.set, hk, Store.lookup]
    · simp [Store.set, hk, Store.lookup, ih]

theorem Store.lookup_set_ne (st : Store) {k k' : String} (h : k' ≠ k) (v : StoreVal) :
    (st.set k v).lookup k' = st.lookup k' := by
  induction st with
  | nil => simp [Store.set, Store.lookup, Ne.symm h]
  | cons hd tl ih =>
    obtain ⟨k0, v0⟩ := hd
    by_cases hk : k0 = k
    · subst hk
      simp [Store.set, Store.lookup, Ne.symm h]
    · simp [Store.set, hk, Store.lookup, ih]

theorem mkId_stamp_inj {k s n1 n2 : String} (h : mkId k s n1 = mkId k s n2) : n1 = n2 := by
  have h2 := congrArg String.data h
  simp only [mkId, String.data_append, List.append_assoc] at h2
  exact String.ext
    (List.append_cancel_left (List.append_cancel_left
      (List.append_cancel_left (List.append_cancel_left h2))))

theorem mkId_ne_of_head {k1 k2 : String} {c1 c2 : Char} {t1 t2 : List Char}
    (h1 : k1.data = c1 :: t1) (h2 : k2.data = c2 :: t2) (hc : c1 ≠ c2)
    (s1 s2 n1 n2 : String) : mkId k1 s1 n1 ≠ mkId k2 s2 n2 := by
  intro h
  have hd := congrArg String.data h
  simp only [mkId, String.data_append, List.append_assoc, h1, h2, List.cons_append] at hd
  exact hc (List.head_eq_of_cons_eq hd)

theorem jsOrI_ne_zero {x : Option Int} {d : Int} (hd : d ≠ 0) : jsOrI x d ≠ 0 := by
  cases x with
  | none => simpa [jsOrI] using hd
  | some v => by_cases hv : v = 0 <;> simp [jsOrI, hv, hd]

theorem engineLevel_of_ne_zero {x : Int} (h : x ≠ 0) (d : ℚ) : engineLevel x d = (x : ℚ) := by
  simp [engineLevel, h]

theorem string_append_suffix_ne (d : String) : d ++ "_alerts" ≠ d := by
  intro h
  have h2 := congrArg String.length h
  rw [String.length_append] at h2
  have h7 : ("_alerts" : String).length = 7 := rfl
  omega

theorem ackInList_none (nowIso who aid : String) (l : List Alert)
    (h : ∀ a ∈ l, a.id ≠ aid) : ackInList nowIso who aid l = none := by
  induction l with
  | nil => rfl
  | cons a rest ih =>
    have ha : a.id ≠ aid := h a (List.mem_cons_self a rest)
    have hrest := ih (fun b hb => h b (List.mem_cons_of_mem a hb))
    simp [ackInList, ha, hrest]

theorem ackInList_found (nowIso who aid : String) (l : List Alert) (i : ℕ) (a : Alert)
    (hget : l.get? i = some a) (hid : a.id = aid)
    (hfirst : ∀ j b, j < i → l.get? j = some b → b.id ≠ aid) :
    ackInList nowIso who aid l =
      some (l.set i { a with acknowledged_at := some nowIso, acknowledged_by := some who }) := by
  induction l generalizing i with
  | nil => simp at hget
  | cons hd rest ih =>
    cases i with
    | zero =>
      simp only [List.get?_cons_zero, Option.some.injEq] at hget
      subst hget
      simp [ackInList, hid]
    | succ n =>
      have hhd : hd.id ≠ aid :=
        hfirst 0 hd (Nat.succ_pos n) rfl
      simp only [List.get?_cons_succ] at hget
      have hrest := ih n hget
        (fun j b hj hb => hfirst (j + 1) b (Nat.succ_lt_succ hj) hb)
      simp [ackInList, hhd, hrest, List.set]

/-- C2: for every parsed payload, `normalize` resolves the primary reading
by trying, in order, `Parameters["Live Sensor Readings "]` (trailing
space), `Parameters["Live Sensor Readings"]`, top-level
`["Sensor Reading"]`, `Parameters["Offset"]`; the first present value wins
and is parsed as floating point; if none is present the reading is 0; and
the resulting record always has `sensor_reading == offset ==` that
value. -/
theorem spec2proof_C2 (now : String) (p : Payload) :
    (parseSubtronicsPayload now p).sensor_reading = specPrimaryReading p ∧
    (parseSubtronicsPayload now p).offset = specPrimaryReading p :=
  ⟨rfl, rfl⟩

/-- C4: for every inbound message whose parsing fails, normalization
yields no Canonical Record, and the ingestion pipeline leaves the device
state store unchanged and publishes no data event and no alerts event. -/
theorem spec2proof_C4 (now nowMs nowIso : String) (m : InMsg) (st : Store)
    (h : parseSubtronicsPayloadRaw now m = none) :
    handleSubtronicsMessage now nowMs nowIso m st = (st, []) := by
  simp [handleSubtronicsMessage, h]

/-- C4 witness: a malformed JSON string is dropped with no state change
and no events. -/
theorem spec2proof_C4_witness :
    parseSubtronicsPayloadRaw "t" InMsg.malformed = none ∧
    handleSubtronicsMessage "t" "1" "t" InMsg.malformed stC3 = (stC3, []) :=
  ⟨rfl, spec2proof_C4 "t" "1" "t" InMsg.malformed stC3 rfl⟩

/-- C5: for every parsed payload, `alarm_status` is ALARM iff
`sensor_fault == 1` or any of the three alarm LEDs equals 1, derived
unconditionally from those fields; an explicit alarm-status field carried
in the payload (top-level or inside Parameters) is ignored. -/
theorem spec2proof_C5 (now : String) (p : Payload) (v w : JPrim) :
    ((parseSubtronicsPayload now p).alarm_status =
      if (parseSubtronicsPayload now p).sensor_fault = 1 ∨
          (parseSubtronicsPayload now p).alarm1_led = 1 ∨
          (parseSubtronicsPayload now p).alarm2_led = 1 ∨
          (parseSubtronicsPayload now p).alarm3_led = 1
        then "ALARM" else "NORMAL") ∧
    (parseSubtronicsPayload now (p.setTop "Alarm Status" v)).alarm_status =
      (parseSubtronicsPayload now p).alarm_status ∧
    (parseSubtronicsPayload now (p.setParam "Alarm Status" w)).alarm_status =
      (parseSubtronicsPayload now p).alarm_status := by
  refine ⟨?_, rfl, ?_⟩
  · show alarmStatusOf p.params =
      if sensorFaultOf p.params = 1 ∨ ledOf p.params "Alarm 1 LED Status" = 1 ∨
          ledOf p.params "Alarm 2 LED Status" = 1 ∨ ledOf p.params "Alarm 3 LED Status" = 1
        then "ALARM" else "NORMAL"
    unfold alarmStatusOf
    split_ifs with h1 h2 <;> first | rfl | tauto
  · show alarmStatusOf (setKey p.params "Alarm Status" w) = alarmStatusOf p.params
    unfold alarmStatusOf ledOf sensorFaultOf
    rw [getKey_setKey_ne (by decide), getKey_setKey_ne (by decide),
      getKey_setKey_ne (by decide), getKey_setKey_ne (by decide),
      getKey_setKey_ne (by decide)]

/-- C10: a configured alarm level that parses to 0 is indistinguishable
from an absent one — the normalizer stores the default (A1 → 250,
A2 → 500, A3 → 1000) — and the rule engine applies the same
zero-to-default coercion when reading the levels back from the record, so
an effective threshold of 0 is impossible. -/
theorem spec2proof_C10 (now : String) (p : Payload) :
    ((∀ v, getKey p.params "Alarm Level A1" = some v → parseIntP v = some 0 →
        (parseSubtronicsPayload now p).a1_level = 250) ∧
      (∀ v, getKey p.params "Alarm Level A2" = some v → parseIntP v = some 0 →
        (parseSubtronicsPayload now p).a2_level = 500) ∧
      (∀ v, getKey p.params "Alarm Level A3" = some v → parseIntP v = some 0 →
        (parseSubtronicsPayload now p).a3_level = 1000)) ∧
    (∀ r : Record,
      (r.a1_level = 0 → engineLevel r.a1_level 250 = 250) ∧
      (r.a2_level = 0 → engineLevel r.a2_level 500 = 500) ∧
      (r.a3_level = 0 → engineLevel r.a3_level 1000 = 1000) ∧
      engineLevel r.a1_level 250 ≠ 0 ∧ engineLevel r.a2_level 500 ≠ 0 ∧
      engineLevel r.a3_level 1000 ≠ 0) := by
  constructor
  · refine ⟨?_, ?_, ?_⟩ <;>
      · intro v hv hz
        show intField p.params _ _ = _
        simp [intField, parseIntU, hv, hz, jsOrI]
  · intro r
    refine ⟨?_, ?_, ?_, ?_, ?_, ?_⟩
    · intro h; simp [engineLevel, h]
    · intro h; simp [engineLevel, h]
    · intro h; simp [engineLevel, h]
    · by_cases h : (r.a1_level : ℚ) = 0 <;> simp [engineLevel, h]
    · by_cases h : (r.a2_level : ℚ) = 0 <;> simp [engineLevel, h]
    · by_cases h : (r.a3_level : ℚ) = 0 <;> simp [engineLevel, h]

/-- C10 witness: a payload configuring all three levels to values parsing
to 0 gets the defaults, and the engine's read-back of a zero threshold is
the default. -/
theorem spec2proof_C10_witness :
    (parseSubtronicsPayload "t" pW10).a1_level = 250 ∧
    (parseSubtronicsPayload "t" pW10).a2_level = 500 ∧
    (parseSubtronicsPayload "t" pW10).a3_level = 1000 ∧
    engineLevel rZero.a1_level 250 = 250 ∧ engineLevel rZero.a3_level 1000 ≠ 0 :=
  have h := spec2proof_C10 "t" pW10
  ⟨h.1.1 (JPrim.str "0") rfl (by decide),
    h.1.2.1 (JPrim.num 0) rfl (by decide),
    h.1.2.2 (JPrim.str "0.7") rfl (by decide),
    (h.2 rZero).1 rfl,
    (h.2 rZero).2.2.2.2.2⟩

/-- C8: for every single inbound message, the emitted event sequence is
empty, a lone data event, or a data event followed by the alerts event for
the same device — an alerts event is never delivered before the data event
carrying that record. -/
theorem spec2proof_C8 (now nowMs nowIso : String) (m : InMsg) (st : Store) :
    (handleSubtronicsMessage now nowMs nowIso m st).2 = [] ∨
    (∃ d r, (handleSubtronicsMessage now nowMs nowIso m st).2 = [OutEvent.dataEvent d r]) ∨
    (∃ d r alerts, (handleSubtronicsMessage now nowMs nowIso m st).2 =
      [OutEvent.dataEvent d r, OutEvent.alertsEvent d alerts]) := by
  unfold handleSubtronicsMessage
  cases hm : parseSubtronicsPayloadRaw now m with
  | none => simp
  | some r =>
    simp only
    by_cases he : (generateSubtronicsAlerts nowMs nowIso r).isEmpty
    · simp [he]
    · simp only [he, if_false, Bool.false_eq_true]
      cases hl : (st.set r.serial_number.toStr (StoreVal.record r)).lookup
          (r.serial_number.toStr ++ "_alerts") with
      | none => simp
      | some sv =>
        cases sv with
        | record r2 => simp
        | alerts ex => simp

/-- C7 counterexample: for a payload carrying neither
`"Date Time At Reading"` nor `"timestamp"`, two normalizations at
different ingestion times produce records that still differ after
equalizing `processed_at` — the `timestamp` field also took the ingestion
time. -/
theorem spec2proof_C7_counterexample :
    { parseSubtronicsPayload "2024-01-01T00:00:00Z" pC7 with
        processed_at := (parseSubtronicsPayload "2024-01-01T00:00:01Z" pC7).processed_at } ≠
      parseSubtronicsPayload "2024-01-01T00:00:01Z" pC7 := by decide

/-- C7 (amended): normalizing the same raw payload twice yields Canonical
Records identical in every field except `processed_at` and `timestamp`;
the `timestamp` fields also agree whenever the payload carries a truthy
`"Date Time At Reading"` or `"timestamp"` (otherwise `timestamp` is the
ingestion time and may differ between the runs). -/
theorem spec2proof_C7 (p : Payload) (n1 n2 : String) :
    ({ parseSubtronicsPayload n1 p with processed_at := "", timestamp := JPrim.str "" } =
      { parseSubtronicsPayload n2 p with processed_at := "", timestamp := JPrim.str "" }) ∧
    ((truthyKey p.top "Date Time At Reading" || truthyKey p.top "timestamp") = true →
      (parseSubtronicsPayload n1 p).timestamp = (parseSubtronicsPayload n2 p).timestamp) := by
  constructor
  · rfl
  · intro h
    show jsOr2 (getKey p.top "Date Time At Reading")
        (jsOr2 (getKey p.top "timestamp") (JPrim.str n1)) =
      jsOr2 (getKey p.top "Date Time At Reading")
        (jsOr2 (getKey p.top "timestamp") (JPrim.str n2))
    cases hd : getKey p.top "Date Time At Reading" with
    | some v =>
      by_cases hv : v.truthy
      · simp [jsOr2, hv]
      · cases ht : getKey p.top "timestamp" with
        | some w =>
          by_cases hw : w.truthy
          · simp [jsOr2, hv, hw]
          · exfalso; simp [truthyKey, hd, ht, hv, hw] at h
        | none => exfalso; simp [truthyKey, hd, ht, hv] at h
    | none =>
      cases ht : getKey p.top "timestamp" with
      | some w =>
        by_cases hw : w.truthy
        · simp [jsOr2, hw]
        · exfalso; simp [truthyKey, hd, ht, hw] at h
      | none => exfalso; simp [truthyKey, hd, ht] at h

/-- C7 witness: with an explicit `"timestamp"` in the payload, two runs at
different ingestion times agree on every field except `processed_at`,
including `timestamp`. -/
theorem spec2proof_C7_witness :
    ({ parseSubtronicsPayload "A" pW7 with processed_at := "", timestamp := JPrim.str "" } =
      { parseSubtronicsPayload "B" pW7 with processed_at := "", timestamp := JPrim.str "" }) ∧
    (parseSubtronicsPayload "A" pW7).timestamp = (parseSubtronicsPayload "B" pW7).timestamp :=
  ⟨(spec2proof_C7 pW7 "A" "B").1, (spec2proof_C7 pW7 "A" "B").2 (by decide)⟩

/-- C1 counterexample: on the Canonical Record of `pC1` (reading parses to
`NaN`, A3 threshold -1) the engine emits `alarm_level_3` although the
claimed guard `sensor_reading >= a3_level` is false under floating-point
comparison (`NaN >= -1` is false) — the engine first coerces the `NaN`
reading to 0 via `parseFloat(...) || 0`. -/
theorem spec2proof_C1_counterexample :
    ((generateSubtronicsAlerts "111" "t" (parseSubtronicsPayload "t" pC1)).map Alert.type =
      ["alarm_level_3"]) ∧
    fpGe (parseSubtronicsPayload "t" pC1).sensor_reading
      ((parseSubtronicsPayload "t" pC1).a3_level : ℚ) = false := by decide

/-- C1 (amended): for every Canonical Record produced by the normalizer,
the engine returns exactly one `sensor_fault`/critical alert iff
`sensor_fault == 1`, followed by at most one threshold alert chosen by the
mutually exclusive high-to-low cascade with `>=` (ties breach), where the
compared reading is `sensor_reading` with a `NaN` parse coerced to 0
(`parseFloat(...) || 0`); no other alerts are returned. -/
theorem spec2proof_C1 (now nowMs nowIso : String) (p : Payload) :
    (generateSubtronicsAlerts nowMs nowIso (parseSubtronicsPayload now p)).map
        (fun a => (a.type, a.severity)) =
      (if (parseSubtronicsPayload now p).sensor_fault = 1
        then [("sensor_fault", "critical")] else []) ++
      (if ((parseSubtronicsPayload now p).a3_level : ℚ) ≤
            jsOrQ (parseSubtronicsPayload now p).sensor_reading 0
        then [("alarm_level_3", "critical")]
        else if ((parseSubtronicsPayload now p).a2_level : ℚ) ≤
            jsOrQ (parseSubtronicsPayload now p).sensor_reading 0
        then [("alarm_level_2", "high")]
        else if ((parseSubtronicsPayload now p).a1_level : ℚ) ≤
            jsOrQ (parseSubtronicsPayload now p).sensor_reading 0
        then [("alarm_level_1", "warning")]
        else []) := by
  have h1 : (parseSubtronicsPayload now p).a1_level ≠ 0 := jsOrI_ne_zero (by norm_num)
  have h2 : (parseSubtronicsPayload now p).a2_level ≠ 0 := jsOrI_ne_zero (by norm_num)
  have h3 : (parseSubtronicsPayload now p).a3_level ≠ 0 := jsOrI_ne_zero (by norm_num)
  simp only [generateSubtronicsAlerts, thresholdAlerts,
    engineLevel_of_ne_zero h1, engineLevel_of_ne_zero h2, engineLevel_of_ne_zero h3]
  by_cases hf : (parseSubtronicsPayload now p).sensor_fault = 1 <;>
    by_cases c3 : ((parseSubtronicsPayload now p).a3_level : ℚ) ≤
      jsOrQ (parseSubtronicsPayload now p).sensor_reading 0 <;>
    by_cases c2 : ((parseSubtronicsPayload now p).a2_level : ℚ) ≤
      jsOrQ (parseSubtronicsPayload now p).sensor_reading 0 <;>
    by_cases c1 : ((parseSubtronicsPayload now p).a1_level : ℚ) ≤
      jsOrQ (parseSubtronicsPayload now p).sensor_reading 0 <;>
    simp [hf, c3, c2, c1, faultAlert, alarm3Alert, alarm2Alert, alarm1Alert]

/-- C3 counterexample: acknowledging a known alert succeeds and sets
`acknowledged_by`, yet the `acknowledged` flag itself is still absent
(`none`), not `true` — the handler never writes `acknowledged=true`. -/
theorem spec2proof_C3_counterexample :
    (acknowledgeAlert "T" "ops" stC3 "D" "a1").2 = AckResult.success ∧
    ((acknowledgeAlert "T" "ops" stC3 "D" "a1").1.getAlerts "D").map Alert.acknowledged =
      [none] ∧
    ((acknowledgeAlert "T" "ops" stC3 "D" "a1").1.getAlerts "D").map Alert.acknowledged_by =
      [some "ops"] := by decide

/-- C3 (amended): the acknowledge operation locates the alert by id within
that device's alert list only; on success it sets `acknowledged_at` to the
current time and `acknowledged_by` to the caller-supplied identity (it
does not set the `acknowledged` boolean), touching no other alert and no
other store key; if the id is absent from that device's list it returns
NotFound and mutates nothing; and if the device's `_alerts` key instead
holds a latest-record object (serial aliasing), the lookup throws and the
request fails with a server error, again mutating nothing. -/
theorem spec2proof_C3 (nowIso who : String) (st : Store) (d aid : String) :
    (recordAliased st d = true →
      acknowledgeAlert nowIso who st d aid = (st, AckResult.serverError)) ∧
    (recordAliased st d = false → (∀ a ∈ st.getAlerts d, a.id ≠ aid) →
      acknowledgeAlert nowIso who st d aid = (st, AckResult.notFound)) ∧
    (∀ i a, (st.getAlerts d).get? i = some a → a.id = aid →
      (∀ j b, j < i → (st.getAlerts d).get? j = some b → b.id ≠ aid) →
      acknowledgeAlert nowIso who st d aid =
        (st.set (d ++ "_alerts") (StoreVal.alerts ((st.getAlerts d).set i
          { a with acknowledged_at := some nowIso, acknowledged_by := some who })),
          AckResult.success)) := by
  refine ⟨?_, ?_, ?_⟩
  · intro h
    unfold acknowledgeAlert
    cases hl : st.lookup (d ++ "_alerts") with
    | none => simp [recordAliased, hl] at h
    | some sv =>
      cases sv with
      | record r => simp
      | alerts l => simp [recordAliased, hl] at h
  · intro hna hids
    unfold acknowledgeAlert
    cases hl : st.lookup (d ++ "_alerts") with
    | none => simp
    | some sv =>
      cases sv with
      | record r => simp [recordAliased, hl] at hna
      | alerts l =>
        have he : st.getAlerts d = l := by simp [Store.getAlerts, hl]
        rw [he] at hids
        simp [ackInList_none nowIso who aid l hids]
  · intro i a hget hid hfirst
    unfold acknowledgeAlert
    cases hl : st.lookup (d ++ "_alerts") with
    | none => rw [Store.getAlerts, hl] at hget; simp at hget
    | some sv =>
      cases sv with
      | record r => rw [Store.getAlerts, hl] at hget; simp at hget
      | alerts l =>
        have he : st.getAlerts d = l := by simp [Store.getAlerts, hl]
        rw [he] at hget hfirst
        rw [he]
        simp [ackInList_found nowIso who aid l i a hget hid hfirst]

/-- C3 witness: a record-aliased key answers a server error with the
store untouched; an unknown alert id answers NotFound with the store
untouched; a known id succeeds and rewrites exactly that alert's
`acknowledged_at`/`acknowledged_by`. -/
theorem spec2proof_C3_witness :
    acknowledgeAlert "T2" "bob" stC3r "D" "a1" = (stC3r, AckResult.serverError) ∧
    acknowledgeAlert "T2" "bob" stC3 "D" "zz" = (stC3, AckResult.notFound) ∧
    acknowledgeAlert "T2" "bob" stC3 "D" "a1" =
      (stC3.set ("D" ++ "_alerts") (StoreVal.alerts ((stC3.getAlerts "D").set 0
        { aC3 with acknowledged_at := some "T2", acknowledged_by := some "bob" })),
        AckResult.success) :=
  ⟨(spec2proof_C3 "T2" "bob" stC3r "D" "a1").1 (by decide),
    (spec2proof_C3 "T2" "bob" stC3 "D" "zz").2.1 (by decide) (by decide),
    (spec2proof_C3 "T2" "bob" stC3 "D" "a1").2.2 0 aC3 (by decide) rfl
      (fun j b hj _ => absurd hj (Nat.not_lt_zero j))⟩

/-- C9: current records and alert lists share the one `subtronicsData`
Map, alerts living under `serial + "_alerts"`; storing a new current
record for a device whose serial equals another device's serial followed
by `"_alerts"` replaces that other device's entire alert history, and the
write is frame-preserving exactly for keys other than the serial and its
`_alerts` companion. -/
theorem spec2proof_C9 (now nowMs nowIso : String) (p : Payload) (st : Store) (other : String) :
    ((parseSubtronicsPayload now p).serial_number.toStr = other ++ "_alerts" →
      ((handleSubtronicsMessage now nowMs nowIso (InMsg.wellFormed p) st).1).lookup
          (other ++ "_alerts") =
        some (StoreVal.record (parseSubtronicsPayload now p))) ∧
    (∀ k, k ≠ (parseSubtronicsPayload now p).serial_number.toStr →
      k ≠ (parseSubtronicsPayload now p).serial_number.toStr ++ "_alerts" →
      ((handleSubtronicsMessage now nowMs nowIso (InMsg.wellFormed p) st).1).lookup k =
        st.lookup k) := by
  set r := parseSubtronicsPayload now p with hr
  set d := r.serial_number.toStr with hd
  have hne : d ++ "_alerts" ≠ d := string_append_suffix_ne d
  have hcase : (handleSubtronicsMessage now nowMs nowIso (InMsg.wellFormed p) st).1 =
        st.set d (StoreVal.record r) ∨
      ∃ l, (handleSubtronicsMessage now nowMs nowIso (InMsg.wellFormed p) st).1 =
        (st.set d (StoreVal.record r)).set (d ++ "_alerts") (StoreVal.alerts l) := by
    unfold handleSubtronicsMessage parseSubtronicsPayloadRaw
    simp only
    by_cases he : (generateSubtronicsAlerts nowMs nowIso r).isEmpty
    · simp [he]
    · simp only [he, if_false, Bool.false_eq_true]
      cases hl : (st.set d (StoreVal.record r)).lookup (d ++ "_alerts") with
      | none => right; exact ⟨_, rfl⟩
      | some sv =>
        cases sv with
        | record r2 => left; rfl
        | alerts ex => right; exact ⟨_, rfl⟩
  constructor
  · intro halias
    rw [← halias]
    rcases hcase with hc | ⟨l, hc⟩
    · rw [hc]
      exact Store.lookup_set_self st d (StoreVal.record r)
    · rw [hc, Store.lookup_set_ne _ (Ne.symm hne) _]
      exact Store.lookup_set_self st d (StoreVal.record r)
  · intro k hk1 hk2
    rcases hcase with hc | ⟨l, hc⟩
    · rw [hc, Store.lookup_set_ne _ hk1 _]
    · rw [hc, Store.lookup_set_ne _ hk2 _, Store.lookup_set_ne _ hk1 _]

/-- C9 witness: ingesting a payload whose serial is `OTSM-9_alerts`
overwrites device `OTSM-9`'s stored alert list with the new record, while
an unrelated key is untouched. -/
theorem spec2proof_C9_witness :
    ((handleSubtronicsMessage "t" "1" "t" (InMsg.wellFormed pW9) stW9).1.lookup
        ("OTSM-9" ++ "_alerts") =
      some (StoreVal.record (parseSubtronicsPayload "t" pW9))) ∧
    ((handleSubtronicsMessage "t" "1" "t" (InMsg.wellFormed pW9) stW9).1.lookup "other-key" =
      stW9.lookup "other-key") :=
  ⟨(spec2proof_C9 "t" "1" "t" pW9 stW9 "OTSM-9").1 (by decide),
    (spec2proof_C9 "t" "1" "t" pW9 stW9 "OTSM-9").2 "other-key" (by decide) (by decide)⟩

theorem mkId_ne_of_kinds (pre : List Char) (c1 c2 : Char) {t1 t2 : List Char} {k1 k2 : String}
    (h1 : k1.data = pre ++ c1 :: t1) (h2 : k2.data = pre ++ c2 :: t2) (hc : c1 ≠ c2)
    (s1 s2 n1 n2 : String) : mkId k1 s1 n1 ≠ mkId k2 s2 n2 := by
  intro h
  have hd := congrArg String.data h
  simp only [mkId, String.data_append, List.append_assoc, h1, h2, List.cons_append] at hd
  exact hc (List.head_eq_of_cons_eq (List.append_cancel_left hd))

theorem id_fault_ne_alarm1 (s1 s2 n1 n2 : String) :
    mkId "fault" s1 n1 ≠ mkId "alarm1" s2 n2 :=
  mkId_ne_of_kinds [] 'f' 'a' rfl rfl (by decide) s1 s2 n1 n2

theorem id_fault_ne_alarm2 (s1 s2 n1 n2 : String) :
    mkId "fault" s1 n1 ≠ mkId "alarm2" s2 n2 :=
  mkId_ne_of_kinds [] 'f' 'a' rfl rfl (by decide) s1 s2 n1 n2

theorem id_fault_ne_alarm3 (s1 s2 n1 n2 : String) :
    mkId "fault" s1 n1 ≠ mkId "alarm3" s2 n2 :=
  mkId_ne_of_kinds [] 'f' 'a' rfl rfl (by decide) s1 s2 n1 n2

theorem id_alarm1_ne_fault (s1 s2 n1 n2 : String) :
    mkId "alarm1" s1 n1 ≠ mkId "fault" s2 n2 :=
  mkId_ne_of_kinds [] 'a' 'f' rfl rfl (by decide) s1 s2 n1 n2

theorem id_alarm2_ne_fault (s1 s2 n1 n2 : String) :
    mkId "alarm2" s1 n1 ≠ mkId "fault" s2 n2 :=
  mkId_ne_of_kinds [] 'a' 'f' rfl rfl (by decide) s1 s2 n1 n2

theorem id_alarm3_ne_fault (s1 s2 n1 n2 : String) :
    mkId "alarm3" s1 n1 ≠ mkId "fault" s2 n2 :=
  mkId_ne_of_kinds [] 'a' 'f' rfl rfl (by decide) s1 s2 n1 n2

theorem id_stamp_ne (k s : String) {n1 n2 : String} (h : n1 ≠ n2) :
    mkId k s n1 ≠ mkId k s n2 :=
  fun hh => h (mkId_stamp_inj hh)

/-- C6 counterexample: two back-to-back evaluations of the same record at
the same `Date.now()` millisecond produce alerts with the identical id
`alarm3_OTSM-0001_111` — the claimed distinctness fails because the id's
only disambiguator is the millisecond clock. -/
theorem spec2proof_C6_counterexample :
    ((generateSubtronicsAlerts "111" "t" rC6).map Alert.id = ["alarm3_OTSM-0001_111"]) ∧
    ¬ ((generateSubtronicsAlerts "111" "t" rC6).map Alert.id).Disjoint
        ((generateSubtronicsAlerts "111" "t" rC6).map Alert.id) := by
  have h : (generateSubtronicsAlerts "111" "t" rC6).map Alert.id =
      ["alarm3_OTSM-0001_111"] := by decide
  refine ⟨h, ?_⟩
  rw [h]
  intro hd
  exact hd (List.mem_singleton_self _) (List.mem_singleton_self _)

/-- C6 (amended): alert ids are distinct within one evaluation, and two
evaluations of the same record whose `Date.now()` renderings differ yield
disjoint id sets; ids of two evaluations in the same millisecond collide.
Regardless, storage appends alerts to the device's existing list, so a
colliding id never overwrites a stored alert. -/
theorem spec2proof_C6 (r : Record) (n1 n2 iso1 iso2 : String) :
    (n1 ≠ n2 →
      ((generateSubtronicsAlerts n1 iso1 r).map Alert.id).Disjoint
        ((generateSubtronicsAlerts n2 iso2 r).map Alert.id)) ∧
    ((generateSubtronicsAlerts n1 iso1 r).map Alert.id).Nodup ∧
    (∀ now nowMs nowIso p st l,
      st.lookup ((parseSubtronicsPayload now p).serial_number.toStr ++ "_alerts") =
        some (StoreVal.alerts l) →
      ((handleSubtronicsMessage now nowMs nowIso (InMsg.wellFormed p) st).1).lookup
          ((parseSubtronicsPayload now p).serial_number.toStr ++ "_alerts") =
        some (StoreVal.alerts (l ++ generateSubtronicsAlerts nowMs nowIso
          (parseSubtronicsPayload now p)))) := by
  refine ⟨?_, ?_, ?_⟩
  · intro hn
    unfold generateSubtronicsAlerts thresholdAlerts
    by_cases hf : r.sensor_fault = 1 <;>
      by_cases c3 : engineLevel r.a3_level 1000 ≤ jsOrQ r.sensor_reading 0 <;>
      by_cases c2 : engineLevel r.a2_level 500 ≤ jsOrQ r.sensor_reading 0 <;>
      by_cases c1 : engineLevel r.a1_level 250 ≤ jsOrQ r.sensor_reading 0 <;>
      simp [hf, c3, c2, c1, faultAlert, alarm3Alert, alarm2Alert, alarm1Alert,
        List.disjoint_cons_left, id_stamp_ne _ _ hn, id_stamp_ne _ _ (Ne.symm hn),
        id_fault_ne_alarm1, id_fault_ne_alarm2, id_fault_ne_alarm3,
        id_alarm1_ne_fault, id_alarm2_ne_fault, id_alarm3_ne_fault]
  · unfold generateSubtronicsAlerts thresholdAlerts
    by_cases hf : r.sensor_fault = 1 <;>
      by_cases c3 : engineLevel r.a3_level 1000 ≤ jsOrQ r.sensor_reading 0 <;>
      by_cases c2 : engineLevel r.a2_level 500 ≤ jsOrQ r.sensor_reading 0 <;>
      by_cases c1 : engineLevel r.a1_level 250 ≤ jsOrQ r.sensor_reading 0 <;>
      simp [hf, c3, c2, c1, faultAlert, alarm3Alert, alarm2Alert, alarm1Alert,
        id_fault_ne_alarm1, id_fault_ne_alarm2, id_fault_ne_alarm3]
  · intro now nowMs nowIso p st l hl
    have hne : (parseSubtronicsPayload now p).serial_number.toStr ++ "_alerts" ≠
        (parseSubtronicsPayload now p).serial_number.toStr :=
      string_append_suffix_ne _
    have hlook : ((st.set (parseSubtronicsPayload now p).serial_number.toStr
          (StoreVal.record (parseSubtronicsPayload now p))).lookup
        ((parseSubtronicsPayload now p).serial_number.toStr ++ "_alerts")) =
        some (StoreVal.alerts l) := by
      rw [Store.lookup_set_ne _ hne _]; exact hl
    unfold handleSubtronicsMessage parseSubtronicsPayloadRaw
    simp only
    by_cases he : (generateSubtronicsAlerts nowMs nowIso
        (parseSubtronicsPayload now p)).isEmpty
    · have halerts : generateSubtronicsAlerts nowMs nowIso
          (parseSubtronicsPayload now p) = [] := List.isEmpty_iff.mp he
      simp [he, hlook, halerts]
    · simp only [he, if_false, Bool.false_eq_true]
      rw [hlook]
      simp [Store.lookup_set_self]

/-- C6 witness: at distinct clock renderings the id sets of two
evaluations are disjoint, one evaluation's ids are distinct, and ingestion
appends new alerts after the stored ones. -/
theorem spec2proof_C6_witness :
    (((generateSubtronicsAlerts "1" "t" rC6).map Alert.id).Disjoint
      ((generateSubtronicsAlerts "2" "t" rC6).map Alert.id)) ∧
    ((generateSubtronicsAlerts "1" "t" rC6).map Alert.id).Nodup ∧
    ((handleSubtronicsMessage "t0" "5" "t" (InMsg.wellFormed pC6) stW6).1.lookup
        ((parseSubtronicsPayload "t0" pC6).serial_number.toStr ++ "_alerts") =
      some (StoreVal.alerts ([aC3] ++ generateSubtronicsAlerts "5" "t"
        (parseSubtronicsPayload "t0" pC6)))) :=
  ⟨(spec2proof_C6 rC6 "1" "2" "t" "t").1 (by decide),
    (spec2proof_C6 rC6 "1" "2" "t" "t").2.1,
    (spec2proof_C6 rC6 "1" "2" "t" "t").2.2 "t0" "5" "t" pC6 stW6 [aC3] (by decide)⟩
